import Mathlib

/-!
# Verification of the clusterdock lifecycle model

A shallow embedding, in Lean 4, of the node/cluster/network lifecycle logic of
the `clusterdock` command-line framework (`clusterdock/models.py`,
`clusterdock/utils.py`, `clusterdock/exceptions.py`,
`clusterdock/actions/manage.py`, `clusterdock/actions/ps.py`,
`clusterdock/actions/cp.py`).

The container engine (Docker) is an external collaborator: its remote API is
modelled by explicit inputs (engine-call outcomes, host state records) and by
event traces recording which engine calls the embedded code performs.  The
Python standard-library JSON codec is likewise external; serialized label
values are modelled by an inductive `LabelStr` on which `json.dumps` /
`json.loads` act by their contract (a serialized object deserializes to the
same field list; the empty string is not valid JSON, so deserializing it
fails).
-/

namespace Clusterdock

/-! ## Ownership-label codec (`clusterdock/utils.py`: `get_clusterdock_label`)

`get_clusterdock_label` builds a Python dict with keys `name`, `version`,
`location` from `pkg_resources.get_distribution('clusterdock')`, adds
`cluster_name` only when the argument is truthy, and serializes it with
`json.dumps`; any exception (in particular a failed distribution lookup)
is swallowed and the initial value `label_str = ''` is returned.
-/

/-- A serialized label value: either the empty string (`label_str = ''`, the
exception path of `get_clusterdock_label`) or a JSON-serialized object with
string fields, modelled by its field list (`json.dumps` of a dict of strings,
via the JSON library's round-trip contract). -/
inductive LabelStr where
  | emptyStr : LabelStr
  | jsonObj (fields : List (String × String)) : LabelStr
  deriving DecidableEq, Repr

/-- Metadata of the installed `clusterdock` distribution, as returned by
`pkg_resources.get_distribution('clusterdock')`. -/
structure Distribution where
  project_name : String
  version : String
  location : String
  deriving DecidableEq, Repr

/-- Python truthiness of an optional string: `None` and `''` are falsy. -/
def strTruthy : Option String → Bool
  | none => false
  | some s => s ≠ ""

/-- `utils.get_clusterdock_label(cluster_name=None)`.  `dist` is the outcome of
`get_distribution('clusterdock')` (`none` when the lookup raises); the bare
`except: pass` turns any failure into the initial `label_str = ''`.  The
`cluster_name` key is added only when the argument is truthy. -/
def get_clusterdock_label (dist : Option Distribution) (cluster_name : Option String) :
    LabelStr :=
  match dist with
  | none => .emptyStr
  | some package =>
      let label_info := [("name", package.project_name),
                         ("version", package.version),
                         ("location", package.location)]
      let label_info := if strTruthy cluster_name
                        then label_info ++ [("cluster_name", cluster_name.getD "")]
                        else label_info
      .jsonObj label_info

/-- `json.loads` applied to a stored label value: the empty string is not
valid JSON (raises, modelled as `none`); a serialized object deserializes to
its field list (the JSON library's round-trip contract). -/
def json_loads : LabelStr → Option (List (String × String))
  | .emptyStr => none
  | .jsonObj fields => some fields

/-- Python `dict` lookup on a deserialized label (first matching key). -/
def dictGet (fields : List (String × String)) (key : String) : Option String :=
  (fields.find? (fun f => f.1 = key)).map (·.2)

/-- `label['cluster_name']` after `label = json.loads(...)`: the decode
expression shared by `actions/ps.py` (grouping key) and
`actions/manage.py::_get_containers` (filtering key).  `none` models the
`json.loads` / `KeyError` exception paths. -/
def decodeClusterName (value : LabelStr) : Option String :=
  (json_loads value).bind (fun label => dictGet label "cluster_name")

/-! ## Network acquisition (`clusterdock/models.py`: `Cluster._setup_network`) -/

/-- A `docker.errors.APIError`, distinguished by its explanation string
(`api_error.explanation`), which `_setup_network` compares against the
duplicate-network message. -/
structure APIError where
  explanation : String
  deriving DecidableEq, Repr

/-- A Docker network handle as returned by `client.networks.create` /
`client.networks.get`. -/
structure NetworkHandle where
  name : String
  deriving DecidableEq, Repr

/-- `'network with name {} already exists'.format(name)`: the exact explanation
string `_setup_network` recognizes as the duplicate-network condition. -/
def alreadyExistsExplanation (name : String) : String :=
  "network with name " ++ name ++ " already exists"

/-- `Cluster._setup_network(name)`.  `createResult` is the outcome of
`client.networks.create(name=name, driver='bridge', check_duplicate=True)` and
`existing` the network `client.networks.get(name)` would return.  On an
`APIError` whose explanation equals the duplicate-network message the existing
network is fetched and reused; any other `APIError` is re-raised unchanged. -/
def setup_network (name : String) (createResult : Except APIError NetworkHandle)
    (existing : NetworkHandle) : Except APIError NetworkHandle :=
  match createResult with
  | .ok network => .ok network
  | .error api_error =>
      if api_error.explanation = alreadyExistsExplanation name
      then .ok existing
      else .error api_error

/-! ## Bounded busy-wait (`clusterdock/utils.py`: `wait_for_condition`)

`wait_for_condition` loops `while time() < stop_time`, evaluating the
condition and sleeping `time_between_checks` (1 s here) between checks; with
`time_to_success=0` it returns as soon as the condition is true.  When the
loop exhausts the timeout it invokes `failure(timeout=timeout)` and then
**returns normally** — despite its docstring's `Raises: TimeoutError`, no
exception is raised.  Time is modelled in whole-second ticks (`t` = seconds
since `start_time`); the condition is a function of the tick at which it is
evaluated. -/

/-- Outcome of `wait_for_condition`: the condition became true at tick `t`
(the `success` callback path), or the timeout elapsed and the `failure`
callback was invoked — after which the Python function simply returns.
There is no exception constructor because the source raises nothing. -/
inductive WaitOutcome where
  | metAt (t : Nat) : WaitOutcome
  | failureCallbackThenReturn (timeout : Nat) : WaitOutcome
  deriving DecidableEq, Repr

/-- The `while time() < stop_time` loop of `wait_for_condition`, with
`time_between_checks = 1`: `fuel` is the number of whole-second checks left
before `stop_time`, `t` the current tick. -/
def waitLoop (condition : Nat → Bool) (timeout : Nat) : Nat → Nat → WaitOutcome
  | _, 0 => .failureCallbackThenReturn timeout
  | t, fuel + 1 =>
      if condition t then .metAt t else waitLoop condition timeout (t + 1) fuel

/-- `utils.wait_for_condition(condition, timeout=timeout)` with
`time_between_checks = 1` and `time_to_success = 0`: checks run at ticks
`0, 1, …, timeout - 1`. -/
def wait_for_condition (condition : Nat → Bool) (timeout : Nat) : WaitOutcome :=
  waitLoop condition timeout 0 timeout

/-- The tail of `Node.start` (`clusterdock/models.py`), from the
`wait_for_condition` call on: its per-node running condition is polled with
`timeout=30`; whatever the wait's outcome, `Node.start` proceeds to
`container.reload()`, extracts `ip_address` and `host_ports`, and returns
normally.  The record's mere existence (no error alternative) mirrors that
this code path cannot fail. -/
structure NodeStartedState where
  fqdn : String
  waitOutcome : WaitOutcome
  ip_address : String
  deriving DecidableEq, Repr

/-- `Node.start(network)` after the container has been created and started:
`running` is the container's `State.Running` attribute as a function of the
poll tick, `ipOnNetwork` the address `container.attrs` reports on `network`
after the final reload.  Returns the populated node state unconditionally —
in particular also when the 30-second wait times out. -/
def node_start_wait (hostname network : String) (running : Nat → Bool)
    (ipOnNetwork : String) : NodeStartedState :=
  { fqdn := hostname ++ "." ++ network
    waitOutcome := wait_for_condition running 30
    ip_address := ipOnNetwork }

/-! ## File copy (`clusterdock/actions/cp.py`: `main`) -/

/-- `docker cp` subprocess invocations performed by the `cp` action, in order.
`viaTmpDir` marks the node→node pair of copies staged through the temporary
directory. -/
inductive CpOp where
  | dockerCp (src dst : String) : CpOp
  deriving DecidableEq, Repr

/-- Errors raised by `cp.main` before any copy subprocess runs. -/
inductive CpError where
  /-- `ValueError('Cannot have source and destination the same')`. -/
  | sameSourceAndDestination : CpError
  /-- `ValueError('Source node FQDN or Destination node FQDN required')`. -/
  | noNodeEndpoint : CpError
  /-- `NodeNotFoundError(node)` from `_find_container`. -/
  | nodeNotFound (node : String) : CpError
  deriving DecidableEq, Repr

/-- A running container as seen through `client.containers.list()`:
its id and its `Config.Hostname` attribute. -/
structure RunningContainer where
  id : String
  hostname : String
  deriving DecidableEq, Repr

/-- `cp._find_container(node)`: scan `client.containers.list()` for a
container whose `Config.Hostname` equals `node`; raise `NodeNotFoundError`
when the loop completes without a `break`. -/
def find_container (running : List RunningContainer) (node : String) :
    Except CpError RunningContainer :=
  match running.find? (fun container => container.hostname = node) with
  | some container => .ok container
  | none => .error (.nodeNotFound node)

/-- Python's `':' in s` membership test on a string, via its character
list. -/
def containsChar (s : String) (c : Char) : Bool :=
  s.data.contains c

/-- `s.split(':')[i]` for the pieces `cp.main` uses (the picked index always
exists when `':' ∈ s`). -/
def splitColon (s : String) (i : Nat) : String :=
  ((s.splitOn ":").drop i).headD ""

/-- `cp.main(args)`: validation, then the `docker cp` invocations of the
matched endpoint case.  `running` is `client.containers.list()`; `tmpDir`
stands for the `tempfile.TemporaryDirectory` path of the node→node case.
Raised errors are `.error`; the `.ok` payload lists the copy subprocesses in
invocation order (errors are raised before any of them run). -/
def cp_main (source destination : String) (running : List RunningContainer)
    (tmpDir : String) : Except CpError (List CpOp) :=
  if source = destination then
    .error .sameSourceAndDestination
  else if (containsChar source ':' && containsChar destination ':') then
    match find_container running (splitColon source 0) with
    | .error e => .error e
    | .ok src_container =>
        match find_container running (splitColon destination 0) with
        | .error e => .error e
        | .ok dest_container =>
            let src_path := src_container.id ++ ":" ++ splitColon source 1
            let dest_path := dest_container.id ++ ":" ++ splitColon destination 1
            .ok [.dockerCp src_path tmpDir,
                 .dockerCp (tmpDir ++ "/*") dest_path]
  else if containsChar source ':' then
    match find_container running (splitColon source 0) with
    | .error e => .error e
    | .ok src_container =>
        .ok [.dockerCp (src_container.id ++ ":" ++ splitColon source 1) destination]
  else if containsChar destination ':' then
    match find_container running (splitColon destination 0) with
    | .error e => .error e
    | .ok dest_container =>
        .ok [.dockerCp source (dest_container.id ++ ":" ++ splitColon destination 1)]
  else
    .error .noNodeEndpoint

/-! ## Cluster model (`clusterdock/models.py`: `Cluster`, `NodeGroup`)

`Cluster.__init__(*nodes)` keeps the argument tuple as `self.nodes` and
derives `self.node_groups`, a dict from group name to `NodeGroup`, creating a
group at a node's first appearance and appending later nodes of the same group
(Python dicts preserve insertion order).  `Cluster.__iter__` — and hence the
`for node in self` loop of `Cluster.start` — yields `self.nodes` in
constructor order. -/

/-- The configuration of a `Node` that the cluster-level logic reads:
`hostname` and `group`. -/
structure PNode where
  hostname : String
  group : String
  deriving DecidableEq, Repr

/-- One step of building `Cluster.node_groups`: create a `NodeGroup` keyed by
`node.group` on first appearance, else append to the existing group's node
list. -/
def addNodeToGroups (groups : List (String × List PNode)) (node : PNode) :
    List (String × List PNode) :=
  match groups with
  | [] => [(node.group, [node])]
  | (name, members) :: rest =>
      if name = node.group
      then (name, members ++ [node]) :: rest
      else (name, members) :: addNodeToGroups rest node

/-- `Cluster.node_groups` as derived by `Cluster.__init__` from the node
tuple: an insertion-ordered map from group name to that group's member list
(member order = order of appearance in the constructor arguments). -/
def clusterNodeGroups (nodes : List PNode) : List (String × List PNode) :=
  nodes.foldl addNodeToGroups []

/-- The concatenation of all group member lists, in group order then member
order (the spec's "derived flattened node list"). -/
def flattenGroups (groups : List (String × List PNode)) : List PNode :=
  groups.flatMap (·.2)

/-- A container already attached to the target network, as `Cluster.start`
sees it: the `Aliases` list of its endpoint on that network
(`container.attrs['NetworkSettings']['Networks'][network]['Aliases']`). -/
structure AttachedContainer where
  aliases : List String
  deriving DecidableEq, Repr

/-- `DuplicateHostnamesError(duplicates, network)`
(`clusterdock/exceptions.py`): the (sorted) set of colliding hostnames, here
kept as the finite set itself, and the network name. -/
structure DuplicateHostnamesError where
  duplicates : Finset String
  network : String
  deriving DecidableEq

/-- The hostname set `Cluster.start` intersects against the attached aliases:
`set(node.hostname for node in self.nodes)`. -/
def clusterHostnames (nodes : List PNode) : Finset String :=
  (nodes.map (·.hostname)).toFinset

/-- `set(containers_attached_to_network)` in `Cluster.start`: each attached
container contributes `nested_get(attrs, [..., 'Aliases', 0])`, i.e. only the
FIRST alias of its endpoint on the network. -/
def attachedFirstAliases (attached : List AttachedContainer) : Finset String :=
  (attached.filterMap (·.aliases.head?)).toFinset

/-- The set of ALL aliases of the attached containers — what the claim's
"set of network aliases" denotes; `Cluster.start` does not compute this. -/
def attachedAllAliases (attached : List AttachedContainer) : Finset String :=
  (attached.flatMap (·.aliases)).toFinset

/-- `Cluster.start(network)` after `_setup_network` has yielded the network:
`attached` is `the_network.containers` (with each container's alias list on
the network).  Returns the hostnames of the nodes started by the
`for node in self: node.start(...)` loop, in the order the loop runs them,
paired with the `DuplicateHostnamesError` raised instead, if any; a raise
aborts before the loop, so the started list is empty in that case. -/
def cluster_start (nodes : List PNode) (network : String)
    (attached : List AttachedContainer) :
    List String × Option DuplicateHostnamesError :=
  if attached.length ≠ 0 then
    let duplicate_hostnames := attachedFirstAliases attached ∩ clusterHostnames nodes
    if duplicate_hostnames ≠ ∅ then
      ([], some { duplicates := duplicate_hostnames, network := network })
    else
      (nodes.map (·.hostname), none)
  else
    (nodes.map (·.hostname), none)

/-! ## Host state and inventory scanner
(`clusterdock/utils.py`: `get_containers`;
`clusterdock/actions/manage.py`: `_get_containers`) -/

/-- Modelled from the spec: `defaults['DEFAULT_DOCKER_LABEL_KEY']` comes from
`clusterdock/config.py`, which is not among the provided sources; the spec
describes it as "a fixed well-known label key".  Its concrete value is
irrelevant: all that matters is that the start and teardown/listing paths use
the same key. -/
def labelKey : String := "com.clusterdock"

/-- A container on the host, with the attributes the scanner and teardown
paths read: its id, its `Config.Hostname`, whether it is currently running
(i.e. appears in a bare `client.containers.list()`), its `Config.Labels` map
(values being serialized label strings), and the names of the networks listed
under `NetworkSettings.Networks`. -/
structure HostContainer where
  id : String
  hostname : String
  running : Bool
  labels : List (String × LabelStr)
  networks : List String
  deriving DecidableEq, Repr

/-- A network on the host as `client.networks.list()` returns it; `predefined`
marks Docker's built-in networks (bridge/host/none), whose removal the engine
refuses. -/
structure HostNetwork where
  name : String
  predefined : Bool
  deriving DecidableEq, Repr

/-- The container-engine host state the teardown and listing actions query. -/
structure HostState where
  containers : List HostContainer
  networks : List HostNetwork
  deriving DecidableEq, Repr

/-- `client.containers.list()`: only running containers. -/
def containersList (state : HostState) : List HostContainer :=
  state.containers.filter (·.running)

/-- `client.containers.list(all=True)`: every container, running and
stopped. -/
def containersListAll (state : HostState) : List HostContainer :=
  state.containers

/-- Reading `container.attrs['Config']['Labels'][label_key]` and decoding it:
`.notLabeled` when the key is absent (container skipped), `.decoded` on
success, `.raises` when `json.loads` or the `['cluster_name']` lookup
raises. -/
inductive LabelReadOutcome where
  | notLabeled : LabelReadOutcome
  | decoded (cluster_name : String) : LabelReadOutcome
  | raises : LabelReadOutcome
  deriving DecidableEq, Repr

/-- Python `dict` lookup on a `Config.Labels` map. -/
def dictGetLabel (labels : List (String × LabelStr)) (key : String) :
    Option LabelStr :=
  (labels.find? (fun f => f.1 = key)).map (·.2)

/-- The label-reading step shared by `utils.get_containers`,
`manage._get_containers` and `ps.main`: check `label_key in labels`, then
`json.loads(labels[label_key])['cluster_name']`. -/
def readContainerLabel (container : HostContainer) : LabelReadOutcome :=
  match dictGetLabel container.labels labelKey with
  | none => .notLabeled
  | some value =>
      match decodeClusterName value with
      | some cluster_name => .decoded cluster_name
      | none => .raises

/-- The scan loop body of `utils.get_containers(clusterdock=...)` /
`manage._get_containers(label_check=...)` over `client.containers.list(all=True)`:
without the ownership filter every container is paired with `None`; with it,
unlabeled containers are skipped and labeled ones are paired with their
decoded cluster name.  `none` models a raised decode exception aborting the
scan. -/
def scanContainers (labelCheck : Bool) :
    List HostContainer → Option (List (HostContainer × Option String))
  | [] => some []
  | container :: rest =>
      if labelCheck then
        match readContainerLabel container with
        | .notLabeled => scanContainers labelCheck rest
        | .decoded cluster_name =>
            (scanContainers labelCheck rest).map ((container, some cluster_name) :: ·)
        | .raises => none
      else
        (scanContainers labelCheck rest).map ((container, none) :: ·)

/-- `utils.get_containers(clusterdock)` / `manage._get_containers(label_check)`:
both guard the scan with `if client.containers.list():` — when no container is
RUNNING the loop over `client.containers.list(all=True)` is never entered and
the empty list is returned, stopped containers notwithstanding. -/
def get_containers (clusterdock : Bool) (state : HostState) :
    Option (List (HostContainer × Option String)) :=
  if (containersList state).isEmpty then some []
  else scanContainers clusterdock (containersListAll state)

/-! ## Teardown (`clusterdock/actions/manage.py`:
`main`, `_nuke_containers_and_networks`) -/

/-- The observable steps of `_nuke_containers_and_networks`, in program
order: log lines and mutating engine calls.  `scrubEtcHosts` is
`_remove_node_from_etc_hosts` (runs a disposable container that rewrites the
host's `/etc/hosts`), `removeContainer` is `container.remove(v=True,
force=True)`, `removeNetworkCall` is the `network.remove()` engine call
(attempted; its error may be swallowed). -/
inductive TeardownEvent where
  | debugRemovingContainer (hostname : String) : TeardownEvent
  | scrubEtcHosts (hostname : String) : TeardownEvent
  | removeContainer (id : String) : TeardownEvent
  | warnNoContainersFound : TeardownEvent
  | debugRemovingNetwork (name : String) : TeardownEvent
  | removeNetworkCall (name : String) : TeardownEvent
  | infoRemovedNetworks : TeardownEvent
  | debugRemovedNetwork (name : String) : TeardownEvent
  | warnCannotRemoveNetwork : TeardownEvent
  deriving DecidableEq, Repr

/-- Events that are mutating engine calls (as opposed to log lines). -/
def TeardownEvent.isMutating : TeardownEvent → Bool
  | .scrubEtcHosts _ => true
  | .removeContainer _ => true
  | .removeNetworkCall _ => true
  | _ => false

/-- Events that are log lines. -/
def TeardownEvent.isLog (e : TeardownEvent) : Bool := !e.isMutating

/-- The per-item selection log lines (`'Removing container …'`,
`'Removing network …'`), as opposed to the summary reporting lines. -/
def TeardownEvent.isSelectionLog : TeardownEvent → Bool
  | .debugRemovingContainer _ => true
  | .debugRemovingNetwork _ => true
  | _ => false

/-- The engine's outcome for `network.remove()`, distinguished — as the
source does — by `api_error.explanation` substrings: built-in networks fail
with "is a pre-defined network and cannot be removed", networks with attached
containers with "has active endpoints", other networks are removed. -/
inductive NetworkRemoveOutcome where
  | removed : NetworkRemoveOutcome
  | predefinedError : NetworkRemoveOutcome
  | activeEndpointsError : NetworkRemoveOutcome
  deriving DecidableEq, Repr

/-- Engine model for `network.remove()`: refuse built-in networks; refuse
networks still attached to a surviving container ("has active endpoints");
remove the rest. -/
def networkRemoveOutcome (network : HostNetwork)
    (survivors : List HostContainer) : NetworkRemoveOutcome :=
  if network.predefined then .predefinedError
  else if survivors.any (fun c => c.networks.contains network.name) then
    .activeEndpointsError
  else .removed

/-- CPython's `set(...)` over a list of names, modelled as first-occurrence
deduplication (the claims are order-insensitive; CPython's own set iteration
order is unspecified). -/
def dedupFirst (names : List String) : List String :=
  names.foldl (fun acc x => if acc.contains x then acc else acc ++ [x]) []

/-- `client.networks.get(name)` for each collected name: looks the network up
in the host state (the names come from removed containers' attrs, so a
consistent state has them all). -/
def networksGet (state : HostState) (names : List String) : List HostNetwork :=
  names.filterMap (fun name => state.networks.find? (fun nw => nw.name = name))

/-- The first loop of `_nuke_containers_and_networks`: per selected container,
a debug line, then (live only) the `/etc/hosts` scrub and the forced
removal. -/
def containerLoopEvents (containers_tup : List (HostContainer × Option String))
    (dry_run : Bool) : List TeardownEvent :=
  containers_tup.flatMap (fun tup =>
    [.debugRemovingContainer tup.1.hostname] ++
    (if dry_run then [] else [.scrubEtcHosts tup.1.hostname, .removeContainer tup.1.id]))

/-- `removed_containers` after the first loop: hostnames appended only in a
live run. -/
def removedContainerHostnames (containers_tup : List (HostContainer × Option String))
    (dry_run : Bool) : List String :=
  if dry_run then [] else containers_tup.map (·.1.hostname)

/-- `containers_networks`: network names collected from each selected
container's attrs, only when the `remove_network` flag is set (collected in
both dry and live runs). -/
def containersNetworks (containers_tup : List (HostContainer × Option String))
    (remove_network : Bool) : List String :=
  if remove_network then containers_tup.flatMap (·.1.networks) else []

/-- `networks_to_remove`: every network on the host for `nuke`
(`nuke_networks=True` overrides `remove_network`); otherwise
`client.networks.get` over `set(containers_networks)`. -/
def networksToRemove (state : HostState)
    (containers_tup : List (HostContainer × Option String))
    (nuke_networks remove_network : Bool) : List HostNetwork :=
  if nuke_networks then state.networks
  else networksGet state (dedupFirst (containersNetworks containers_tup remove_network))

/-- The containers surviving the first loop: all of them in a dry run,
otherwise those not selected for removal. -/
def survivingContainers (state : HostState)
    (containers_tup : List (HostContainer × Option String))
    (dry_run : Bool) : List HostContainer :=
  if dry_run then state.containers
  else state.containers.filter (fun c => !(containers_tup.any (fun tup => tup.1.id = c.id)))

/-- The network loop: per candidate network, the debug line, then (live only)
the `network.remove()` engine call; the two recognized error explanations are
swallowed by the `except` clause. -/
def networkLoopEvents (candidates : List HostNetwork) (dry_run : Bool) :
    List TeardownEvent :=
  candidates.flatMap (fun nw =>
    [.debugRemovingNetwork nw.name] ++
    (if dry_run then [] else [.removeNetworkCall nw.name]))

/-- `removed_networks`: names appended only when the live `network.remove()`
call succeeded. -/
def removedNetworkNames (candidates : List HostNetwork)
    (survivors : List HostContainer) (dry_run : Bool) : List String :=
  if dry_run then []
  else (candidates.filter
          (fun nw => networkRemoveOutcome nw survivors = .removed)).map (·.name)

/-- Result of one `_nuke_containers_and_networks` run: the full ordered event
trace, the removed container ids, and the removed network names. -/
structure TeardownResult where
  trace : List TeardownEvent
  removedContainerIds : List String
  removedNetworkNames : List String
  deriving DecidableEq, Repr

/-- `_nuke_containers_and_networks(containers_tup, dry_run, nuke_networks,
remove_network)`: the container loop, the empty-selection warning (live only),
the network loop, then the reporting block (`removed_networks` info + per-name
debug when non-empty, else the cannot-remove warning, itself live-and-
`remove_network`-only). -/
def nuke_containers_and_networks (state : HostState)
    (containers_tup : List (HostContainer × Option String))
    (dry_run nuke_networks remove_network : Bool) : TeardownResult :=
  let removed_containers := removedContainerHostnames containers_tup dry_run
  let candidates := networksToRemove state containers_tup nuke_networks remove_network
  let survivors := survivingContainers state containers_tup dry_run
  let removed_networks := removedNetworkNames candidates survivors dry_run
  { trace :=
      containerLoopEvents containers_tup dry_run ++
      (if !dry_run && removed_containers.isEmpty then [.warnNoContainersFound] else []) ++
      networkLoopEvents candidates dry_run ++
      (if !removed_networks.isEmpty then
        [.infoRemovedNetworks] ++ removed_networks.map (.debugRemovedNetwork ·)
      else if !dry_run && remove_network then [.warnCannotRemoveNetwork]
      else [])
    removedContainerIds := if dry_run then [] else containers_tup.map (·.1.id)
    removedNetworkNames := removed_networks }

/-- The selection step of `manage.main` for `remove`: the label-filtered scan,
kept only where the decoded cluster name is in `args.cluster_names`. -/
def manageRemoveSelection (state : HostState) (cluster_names : List String) :
    Option (List (HostContainer × Option String)) :=
  (get_containers true state).map
    (·.filter (fun tup => match tup.2 with
                          | some cluster_name => cluster_names.contains cluster_name
                          | none => false))

/-- `manage.main` for `manage remove <cluster...>`: select, then
`_nuke_containers_and_networks(..., remove_network=args.network)`.  `none`
models a decode exception during the scan. -/
def manage_remove (state : HostState) (cluster_names : List String)
    (network_flag dry_run : Bool) : Option TeardownResult :=
  (manageRemoveSelection state cluster_names).map
    (fun containers_tup =>
      nuke_containers_and_networks state containers_tup dry_run false network_flag)

/-- `manage.main` for `manage nuke [--all]`: select (all containers, or only
labeled ones), then `_nuke_containers_and_networks(..., nuke_networks=True)`. -/
def manage_nuke (state : HostState) (all_flag dry_run : Bool) :
    Option TeardownResult :=
  (get_containers (!all_flag) state).map
    (fun containers_tup =>
      nuke_containers_and_networks state containers_tup dry_run true false)

/-! ## Characterizations used in theorem statements -/

/-- Whether a container qualifies for `manage remove <cluster...>`: it carries
the ownership label, its value decodes, and the decoded cluster name is in the
requested set. -/
def clusterNameMatches (cluster_names : List String) (c : HostContainer) : Bool :=
  match readContainerLabel c with
  | .decoded cluster_name => cluster_names.contains cluster_name
  | _ => false

/-- The decoded cluster name of a container, when its label decodes. -/
def labelNameOpt (c : HostContainer) : Option String :=
  match readContainerLabel c with
  | .decoded cluster_name => some cluster_name
  | _ => none

/-- The labeled-and-decoded sublist of a container list, each container paired
with its decoded cluster name: what the filtered scan returns. -/
def scannedList : List HostContainer → List (HostContainer × Option String)
  | [] => []
  | c :: rest =>
      match readContainerLabel c with
      | .decoded cluster_name => (c, some cluster_name) :: scannedList rest
      | _ => scannedList rest

/-! ## Theorems -/

/-- Helper: an unfiltered scan pairs every container with `None`. -/
theorem scanContainers_no_label_check (cs : List HostContainer) :
    scanContainers false cs = some (cs.map (fun c => (c, none))) := by
  induction cs with
  | nil => rfl
  | cons c rest ih => simp [scanContainers, ih]

/-- Helper: when no label decode raises, the filtered scan returns the
labeled-and-decoded sublist. -/
theorem scanContainers_label_check (cs : List HostContainer)
    (h : ∀ c ∈ cs, readContainerLabel c ≠ .raises) :
    scanContainers true cs = some (scannedList cs) := by
  induction cs with
  | nil => rfl
  | cons c rest ih =>
      have hc : readContainerLabel c ≠ .raises := h c (by simp)
      have hrest := ih (fun x hx => h x (by simp [hx]))
      cases hcl : readContainerLabel c with
      | notLabeled => simp [scanContainers, hcl, scannedList, hrest]
      | decoded cluster_name => simp [scanContainers, hcl, scannedList, hrest]
      | raises => exact absurd hcl hc

/-- Claim C10: the label encoder never raises — when the distribution lookup
fails (for any reason caught by the bare `except`), `get_clusterdock_label`
returns the empty string for every input cluster name, and the decode side
(`json.loads(...)['cluster_name']`) cannot succeed on that value. -/
theorem c10_encoder_failure_yields_undecodable_empty (cluster_name : Option String) :
    get_clusterdock_label none cluster_name = .emptyStr ∧
    decodeClusterName (get_clusterdock_label none cluster_name) = none := by
  exact ⟨rfl, rfl⟩

/-- Claim C4 (counterexample): for the empty cluster name the claim fails —
`if cluster_name:` is false for `''`, so no `cluster_name` key is stored and
decoding does not yield the encoded name back. -/
theorem c4_round_trip_fails_on_empty_name :
    decodeClusterName
      (get_clusterdock_label (some ⟨"clusterdock", "1.5.0", "/usr/lib/python"⟩)
        (some "")) ≠ some "" := by
  decide

/-- Claim C4 (amended): for every NON-EMPTY cluster name, encoding the
ownership label from the package metadata and the cluster name and then
decoding the stored value yields the identical cluster name; consequently any
container whose label map stores that value under the well-known key decodes
to that name — the name `ps` groups by and `manage remove` filters by. -/
theorem c4_label_round_trip (package : Distribution) (cluster_name : String)
    (h : cluster_name ≠ "") :
    decodeClusterName (get_clusterdock_label (some package) (some cluster_name)) =
      some cluster_name ∧
    ∀ c : HostContainer,
      dictGetLabel c.labels labelKey =
        some (get_clusterdock_label (some package) (some cluster_name)) →
      readContainerLabel c = .decoded cluster_name := by
  have hdec : decodeClusterName (get_clusterdock_label (some package) (some cluster_name)) =
      some cluster_name := by
    simp [get_clusterdock_label, strTruthy, h, decodeClusterName, json_loads, dictGet,
      List.find?]
  refine ⟨hdec, fun c hc => ?_⟩
  simp [readContainerLabel, hc, hdec]

/-- Claim C4 (witness). -/
theorem c4_label_round_trip_witness :
    decodeClusterName
      (get_clusterdock_label (some ⟨"clusterdock", "1.5.0", "/usr/lib/python"⟩)
        (some "bullet_coma")) = some "bullet_coma" :=
  (c4_label_round_trip ⟨"clusterdock", "1.5.0", "/usr/lib/python"⟩ "bullet_coma"
    (by decide)).1

/-- Claim C3: when the engine's create-network call fails with the
already-exists explanation for that name, `_setup_network` fetches and reuses
the existing network and surfaces no error; any other create error is
propagated unchanged (and a successful create is returned as is). -/
theorem c3_setup_network_reuses_existing (name : String) (api_error : APIError)
    (existing created : NetworkHandle) :
    (api_error.explanation = alreadyExistsExplanation name →
      setup_network name (.error api_error) existing = .ok existing) ∧
    (api_error.explanation ≠ alreadyExistsExplanation name →
      setup_network name (.error api_error) existing = .error api_error) ∧
    setup_network name (.ok created) existing = .ok created := by
  refine ⟨fun h => ?_, fun h => ?_, rfl⟩ <;> simp [setup_network, h]

/-- Claim C3 (witness). -/
theorem c3_setup_network_reuses_existing_witness :
    setup_network "cluster" (.error ⟨alreadyExistsExplanation "cluster"⟩) ⟨"cluster"⟩ =
      .ok ⟨"cluster"⟩ ∧
    setup_network "cluster" (.error ⟨"other failure"⟩) ⟨"cluster"⟩ =
      .error ⟨"other failure"⟩ :=
  ⟨(c3_setup_network_reuses_existing "cluster" ⟨alreadyExistsExplanation "cluster"⟩
      ⟨"cluster"⟩ ⟨"cluster"⟩).1 rfl,
   (c3_setup_network_reuses_existing "cluster" ⟨"other failure"⟩
      ⟨"cluster"⟩ ⟨"cluster"⟩).2.1 (by decide)⟩

/-- Claim C2 (code bug): a container that never reports `running` exhausts the
30-second poll, but the timeout is NOT fatal — `wait_for_condition` merely
invokes the `failure` callback (a debug log) and returns normally, despite its
own docstring's `Raises: TimeoutError`, and `Node.start` then proceeds to
reload attributes and returns successfully with its fields populated. -/
theorem c2_timeout_is_not_fatal :
    wait_for_condition (fun _ => false) 30 = .failureCallbackThenReturn 30 ∧
    node_start_wait "node-1" "cluster" (fun _ => false) "" =
      { fqdn := "node-1.cluster"
        waitOutcome := .failureCallbackThenReturn 30
        ip_address := "" } := by
  exact ⟨rfl, rfl⟩

/-- Claim C9: `cp` with identical source and destination strings, or with two
local endpoints (neither containing the `:` hostname separator), fails
validation with a `ValueError` before any archive or copy operation is
attempted (the error carries no copy operations). -/
theorem c9_cp_rejects_local_and_identical (source destination tmpDir : String)
    (running : List RunningContainer) :
    (source = destination →
      cp_main source destination running tmpDir = .error .sameSourceAndDestination) ∧
    (source ≠ destination → containsChar source ':' = false →
      containsChar destination ':' = false →
      cp_main source destination running tmpDir = .error .noNodeEndpoint) := by
  constructor
  · intro h
    simp [cp_main, h]
  · intro h hs hd
    simp [cp_main, h, hs, hd]

/-- Claim C9 (witness). -/
theorem c9_cp_rejects_local_and_identical_witness :
    cp_main "/tmp/a" "/tmp/a" [] "/tmpdir" = .error .sameSourceAndDestination ∧
    cp_main "/tmp/a" "/tmp/b" [] "/tmpdir" = .error .noNodeEndpoint :=
  ⟨(c9_cp_rejects_local_and_identical "/tmp/a" "/tmp/a" "/tmpdir" []).1 rfl,
   (c9_cp_rejects_local_and_identical "/tmp/a" "/tmp/b" "/tmpdir" []).2
     (by decide) (by decide) (by decide)⟩

/-- Claim C1 (counterexample): `Cluster.start` reads only each attached
container's FIRST network alias (`nested_get(..., ['... 'Aliases', 0])`).  A
container whose alias list is `["alias0", "host-1"]` collides — per the
claim's "set of network aliases" — with intended hostname `host-1`, yet
`Cluster.start` raises nothing and starts the node. -/
theorem c1_all_alias_intersection_not_detected :
    (attachedAllAliases [⟨["alias0", "host-1"]⟩] ∩
      clusterHostnames [⟨"host-1", "primary"⟩]).Nonempty ∧
    cluster_start [⟨"host-1", "primary"⟩] "cluster" [⟨["alias0", "host-1"]⟩] =
      (["host-1"], none) := by
  constructor
  · exact ⟨"host-1", by decide⟩
  · decide

/-- Claim C1 (amended): for every cluster whose set of intended node hostnames
intersects the set of FIRST-listed network aliases of containers already
attached to the target network, `Cluster.start` raises a duplicate-hostname
error whose set of named hostnames equals exactly that intersection, and no
node is started before the error is raised. -/
theorem c1_duplicate_hostnames_abort_start (nodes : List PNode) (network : String)
    (attached : List AttachedContainer)
    (h : (attachedFirstAliases attached ∩ clusterHostnames nodes).Nonempty) :
    cluster_start nodes network attached =
      ([], some { duplicates := attachedFirstAliases attached ∩ clusterHostnames nodes
                  network := network }) := by
  have hattached : attached.length ≠ 0 := by
    intro hlen
    rw [List.length_eq_zero] at hlen
    subst hlen
    simp [attachedFirstAliases] at h
  have hne : attachedFirstAliases attached ∩ clusterHostnames nodes ≠ ∅ :=
    h.ne_empty
  simp [cluster_start, hattached, hne]

/-- Claim C1 (witness). -/
theorem c1_duplicate_hostnames_abort_start_witness :
    (attachedFirstAliases [⟨["host-1"]⟩] ∩
      clusterHostnames [⟨"host-1", "primary"⟩, ⟨"host-2", "primary"⟩]).Nonempty ∧
    cluster_start [⟨"host-1", "primary"⟩, ⟨"host-2", "primary"⟩] "cluster"
        [⟨["host-1"]⟩] =
      ([], some { duplicates := attachedFirstAliases [⟨["host-1"]⟩] ∩
                    clusterHostnames [⟨"host-1", "primary"⟩, ⟨"host-2", "primary"⟩]
                  network := "cluster" }) :=
  ⟨⟨"host-1", by decide⟩,
   c1_duplicate_hostnames_abort_start
     [⟨"host-1", "primary"⟩, ⟨"host-2", "primary"⟩] "cluster" [⟨["host-1"]⟩]
     ⟨"host-1", by decide⟩⟩

/-- Helper for C8: regrouping one node permutes the flattened group list by a
cons. -/
theorem flattenGroups_addNodeToGroups_perm (groups : List (String × List PNode))
    (node : PNode) :
    (flattenGroups (addNodeToGroups groups node)).Perm (node :: flattenGroups groups) := by
  induction groups with
  | nil => simp [addNodeToGroups, flattenGroups]
  | cons head rest ih =>
      obtain ⟨name, members⟩ := head
      by_cases h : name = node.group
      · subst h
        simp only [addNodeToGroups]
        rw [if_pos trivial]
        simp only [flattenGroups, List.flatMap_cons, List.append_assoc,
          List.singleton_append]
        exact List.perm_middle
      · simp only [addNodeToGroups, if_neg h, flattenGroups, List.flatMap_cons]
        exact (ih.append_left members).trans List.perm_middle

/-- Helper for C8: the flattened derived groups are a permutation of the
constructor node list. -/
theorem flattenGroups_foldl_perm (nodes : List PNode) :
    ∀ groups : List (String × List PNode),
      (flattenGroups (nodes.foldl addNodeToGroups groups)).Perm
        (nodes ++ flattenGroups groups) := by
  induction nodes with
  | nil => intro groups; simp
  | cons node rest ih =>
      intro groups
      have h1 := ih (addNodeToGroups groups node)
      have h2 := (flattenGroups_addNodeToGroups_perm groups node).append_left rest
      simpa using (h1.trans h2).trans List.perm_middle

/-- Claim C8 (counterexample): with nodes of interleaved groups, the list
`Cluster.start` iterates (the constructor order) is NOT the concatenation of
the derived group member lists in group order then member order. -/
theorem c8_interleaved_groups_break_concatenation :
    flattenGroups (clusterNodeGroups
        [⟨"a", "primary"⟩, ⟨"b", "secondary"⟩, ⟨"c", "primary"⟩]) ≠
      [⟨"a", "primary"⟩, ⟨"b", "secondary"⟩, ⟨"c", "primary"⟩] ∧
    (cluster_start [⟨"a", "primary"⟩, ⟨"b", "secondary"⟩, ⟨"c", "primary"⟩]
        "cluster" []).1 = ["a", "b", "c"] := by
  decide

/-- Claim C8 (amended): `Cluster.start` starts the nodes in exactly the
constructor-argument order (`self.nodes`), and the concatenation of all
derived group member lists — group order then member order — is a permutation
of that list (equal only when same-group nodes are contiguous). -/
theorem c8_start_order_is_constructor_order (nodes : List PNode) (network : String) :
    (cluster_start nodes network []).1 = nodes.map (·.hostname) ∧
    (flattenGroups (clusterNodeGroups nodes)).Perm nodes := by
  constructor
  · simp [cluster_start]
  · simpa [clusterNodeGroups, flattenGroups] using flattenGroups_foldl_perm nodes []

/-- Claim C7 (counterexample): the scan is guarded by
`if client.containers.list():`, which lists only RUNNING containers — on a
host whose only (labeled, decodable) container is stopped, the scanner returns
the empty list instead of that container, for both the filtered and the
unfiltered mode. -/
theorem c7_scanner_misses_stopped_only_host :
    get_containers true
        { containers := [{ id := "c1", hostname := "h1", running := false,
                           labels := [(labelKey,
                             .jsonObj [("name", "clusterdock"), ("version", "1.5.0"),
                                       ("location", "/usr/lib/python"),
                                       ("cluster_name", "pandora")])],
                           networks := ["cluster"] }]
          networks := [{ name := "cluster", predefined := false }] } = some [] ∧
    get_containers false
        { containers := [{ id := "c1", hostname := "h1", running := false,
                           labels := [(labelKey,
                             .jsonObj [("name", "clusterdock"), ("version", "1.5.0"),
                                       ("location", "/usr/lib/python"),
                                       ("cluster_name", "pandora")])],
                           networks := ["cluster"] }]
          networks := [{ name := "cluster", predefined := false }] } = some [] ∧
    readContainerLabel
        { id := "c1", hostname := "h1", running := false,
          labels := [(labelKey,
            .jsonObj [("name", "clusterdock"), ("version", "1.5.0"),
                      ("location", "/usr/lib/python"),
                      ("cluster_name", "pandora")])],
          networks := ["cluster"] } = .decoded "pandora" := by
  refine ⟨rfl, rfl, ?_⟩
  decide

/-- Claim C7 (amended): provided at least one container on the host is RUNNING
(the scan guard) and every labeled container's value decodes, the scanner
returns every container on the host, running and stopped: with the ownership
filter, exactly the containers carrying the well-known label key, each paired
with its decoded cluster name; without the filter, all containers, each
untagged.  When no container is running it returns the empty list even if
stopped containers exist. -/
theorem c7_scanner_contract (state : HostState)
    (hrun : (containersList state).isEmpty = false)
    (hdec : ∀ c ∈ state.containers, readContainerLabel c ≠ .raises) :
    get_containers true state = some (scannedList state.containers) ∧
    get_containers false state =
      some (state.containers.map (fun c => (c, none))) ∧
    ∀ state' : HostState, (containersList state').isEmpty = true →
      get_containers true state' = some [] := by
  refine ⟨?_, ?_, fun state' h' => ?_⟩
  · simp [get_containers, hrun, containersListAll,
      scanContainers_label_check state.containers hdec]
  · simp [get_containers, hrun, containersListAll, scanContainers_no_label_check]
  · simp [get_containers, h']

/-- Claim C7 (witness). -/
theorem c7_scanner_contract_witness :
    get_containers true
        { containers := [{ id := "c2", hostname := "h2", running := true,
                           labels := [(labelKey,
                             .jsonObj [("name", "clusterdock"), ("version", "1.5.0"),
                                       ("location", "/usr/lib/python"),
                                       ("cluster_name", "virgo")])],
                           networks := ["cluster"] }]
          networks := [{ name := "cluster", predefined := false }] } =
      some (scannedList [{ id := "c2", hostname := "h2", running := true,
                           labels := [(labelKey,
                             .jsonObj [("name", "clusterdock"), ("version", "1.5.0"),
                                       ("location", "/usr/lib/python"),
                                       ("cluster_name", "virgo")])],
                           networks := ["cluster"] }]) :=
  (c7_scanner_contract
    { containers := [{ id := "c2", hostname := "h2", running := true,
                       labels := [(labelKey,
                         .jsonObj [("name", "clusterdock"), ("version", "1.5.0"),
                                   ("location", "/usr/lib/python"),
                                   ("cluster_name", "virgo")])],
                       networks := ["cluster"] }]
      networks := [{ name := "cluster", predefined := false }] }
    (by decide) (by decide)).1

/-- Helper: membership in the foldl underlying `dedupFirst`. -/
theorem mem_dedupFirst_aux (x : String) (l : List String) :
    ∀ acc, (x ∈ l.foldl (fun acc y => if acc.contains y then acc else acc ++ [y]) acc) ↔
      x ∈ acc ∨ x ∈ l := by
  induction l with
  | nil => intro acc; simp
  | cons y l ih =>
      intro acc
      rw [List.foldl_cons, ih]
      by_cases hy : acc.contains y = true
      · have hymem : y ∈ acc := by simpa using hy
        rw [if_pos hy]
        simp only [List.mem_cons]
        constructor
        · rintro (h | h)
          exacts [Or.inl h, Or.inr (Or.inr h)]
        · rintro (h | h | h)
          exacts [Or.inl h, Or.inl (h ▸ hymem), Or.inr h]
      · rw [if_neg hy]
        simp only [List.mem_append, List.mem_singleton, List.mem_cons]
        tauto

/-- Helper: `dedupFirst` preserves membership. -/
theorem mem_dedupFirst (x : String) (l : List String) :
    x ∈ dedupFirst l ↔ x ∈ l := by
  rw [dedupFirst, mem_dedupFirst_aux x l []]
  simp

/-- Helper: filtering the scanned list by requested cluster names keeps
exactly the matching containers. -/
theorem scannedList_filter (cluster_names : List String) (cs : List HostContainer) :
    (scannedList cs).filter (fun tup => match tup.2 with
        | some cluster_name => cluster_names.contains cluster_name
        | none => false) =
      (cs.filter (clusterNameMatches cluster_names)).map
        (fun c => (c, labelNameOpt c)) := by
  induction cs with
  | nil => rfl
  | cons c rest ih =>
      cases hcl : readContainerLabel c with
      | notLabeled => simpa [scannedList, hcl, clusterNameMatches] using ih
      | decoded cluster_name =>
          by_cases hin : cluster_name ∈ cluster_names
          · simpa [scannedList, hcl, clusterNameMatches, labelNameOpt, hin] using ih
          · simpa [scannedList, hcl, clusterNameMatches, hin] using ih
      | raises => simpa [scannedList, hcl, clusterNameMatches] using ih

/-- Helper: the `manage remove` selection is exactly the matching labeled
containers, in host order. -/
theorem manageRemoveSelection_eq (state : HostState) (cluster_names : List String)
    (hrun : (containersList state).isEmpty = false)
    (hdec : ∀ c ∈ state.containers, readContainerLabel c ≠ .raises) :
    manageRemoveSelection state cluster_names =
      some ((state.containers.filter (clusterNameMatches cluster_names)).map
        (fun c => (c, labelNameOpt c))) := by
  have hget : get_containers true state = some (scannedList state.containers) := by
    simp [get_containers, hrun, containersListAll,
      scanContainers_label_check state.containers hdec]
  rw [manageRemoveSelection, hget, Option.map_some', scannedList_filter]

/-- Claim C5 (counterexample): with no RUNNING container on the host, the
`if client.containers.list():` guard makes the selection empty, so a live
`manage remove ["pandora"]` removes nothing even though a stopped labeled
container of cluster `pandora` exists. -/
theorem c5_manage_remove_misses_stopped_only_host :
    (manage_remove
        { containers := [{ id := "c1", hostname := "h1", running := false,
                           labels := [(labelKey,
                             .jsonObj [("name", "clusterdock"), ("version", "1.5.0"),
                                       ("location", "/usr/lib/python"),
                                       ("cluster_name", "pandora")])],
                           networks := ["cluster"] }]
          networks := [{ name := "cluster", predefined := false }] }
        ["pandora"] true false).map (·.removedContainerIds) ≠ some ["c1"] ∧
    clusterNameMatches ["pandora"]
        { id := "c1", hostname := "h1", running := false,
          labels := [(labelKey,
            .jsonObj [("name", "clusterdock"), ("version", "1.5.0"),
                      ("location", "/usr/lib/python"),
                      ("cluster_name", "pandora")])],
          networks := ["cluster"] } = true := by
  decide

/-- Claim C5 (amended): provided at least one container on the host is running
(the scan guard), every labeled container's value decodes, and container ids
are distinct, a live `manage remove` removes exactly the labeled containers
whose decoded cluster name is in the requested set (leaving all other
containers untouched), and every network it removes was attached to at least
one removed container and to no surviving container (it was exclusively
attached to removed containers). -/
theorem c5_manage_remove_exact (state : HostState) (cluster_names : List String)
    (network_flag : Bool)
    (hrun : (containersList state).isEmpty = false)
    (hdec : ∀ c ∈ state.containers, readContainerLabel c ≠ .raises)
    (hids : (state.containers.map (·.id)).Nodup) :
    ∃ result, manage_remove state cluster_names network_flag false = some result ∧
      result.removedContainerIds =
        (state.containers.filter (clusterNameMatches cluster_names)).map (·.id) ∧
      ∀ name ∈ result.removedNetworkNames,
        (∃ c ∈ state.containers,
          clusterNameMatches cluster_names c = true ∧ name ∈ c.networks) ∧
        (∀ c ∈ state.containers, name ∈ c.networks →
          clusterNameMatches cluster_names c = true) := by
  have hsel := manageRemoveSelection_eq state cluster_names hrun hdec
  refine ⟨nuke_containers_and_networks state
      ((state.containers.filter (clusterNameMatches cluster_names)).map
        (fun c => (c, labelNameOpt c))) false false network_flag, ?_, ?_, ?_⟩
  · simp [manage_remove, hsel]
  · simp [nuke_containers_and_networks, List.map_map]
  · intro name hmem
    set sel := (state.containers.filter (clusterNameMatches cluster_names)).map
      (fun c => (c, labelNameOpt c)) with hsel_def
    have hsel_mem : ∀ tup ∈ sel, tup.1 ∈ state.containers ∧
        clusterNameMatches cluster_names tup.1 = true := by
      intro tup htup
      rw [hsel_def] at htup
      obtain ⟨c, hc, rfl⟩ := List.mem_map.mp htup
      exact ⟨(List.mem_filter.mp hc).1, (List.mem_filter.mp hc).2⟩
    simp only [nuke_containers_and_networks, removedNetworkNames,
      Bool.false_eq_true, if_false] at hmem
    obtain ⟨nw, hnwmem, hnwname⟩ := List.mem_map.mp hmem
    have houtcome := (List.mem_filter.mp hnwmem).2
    have hcand := (List.mem_filter.mp hnwmem).1
    rw [decide_eq_true_eq] at houtcome
    -- `nw` came from `networksGet` over the deduplicated collected names.
    simp only [networksToRemove, Bool.false_eq_true, if_false, networksGet,
      List.mem_filterMap] at hcand
    obtain ⟨name', hname'mem, hfind⟩ := hcand
    have hnwname' : nw.name = name' := by
      have := List.find?_some hfind
      simpa using this
    have hname'eq : name' = name := by rw [← hnwname', hnwname]
    subst hname'eq
    rw [mem_dedupFirst] at hname'mem
    have hflag : network_flag = true := by
      by_contra hf
      simp [containersNetworks, hf] at hname'mem
    rw [containersNetworks, if_pos hflag] at hname'mem
    obtain ⟨tup, htup, hnamenets⟩ := List.mem_flatMap.mp hname'mem
    obtain ⟨htupmem, htupmatch⟩ := hsel_mem tup htup
    refine ⟨⟨tup.1, htupmem, htupmatch, hnamenets⟩, ?_⟩
    -- Exclusivity: any still-attached container must have been selected.
    intro c hc hcnet
    by_contra hcmatch
    have hsurv : c ∈ survivingContainers state sel false := by
      rw [survivingContainers, if_neg (by simp)]
      rw [List.mem_filter]
      refine ⟨hc, ?_⟩
      simp only [Bool.not_eq_eq_eq_not, Bool.not_true, List.any_eq_false]
      intro tup' htup'
      obtain ⟨htup'mem, htup'match⟩ := hsel_mem tup' htup'
      intro hid
      rw [decide_eq_true_eq] at hid
      have : tup'.1 = c :=
        List.inj_on_of_nodup_map hids htup'mem hc hid
      rw [this] at htup'match
      exact hcmatch htup'match
    have hactive : (survivingContainers state sel false).any
        (fun x => x.networks.contains nw.name) = true := by
      rw [List.any_eq_true]
      refine ⟨c, hsurv, ?_⟩
      rw [hnwname]
      exact List.elem_iff.mpr hcnet
    rw [networkRemoveOutcome] at houtcome
    by_cases hpre : nw.predefined = true
    · rw [if_pos hpre] at houtcome
      exact absurd houtcome (by decide)
    · rw [if_neg hpre, if_pos hactive] at houtcome
      exact absurd houtcome (by decide)

/-- Claim C5 (witness): a host with one running labeled `pandora` container
attached to a private network and one running labeled `virgo` container on the
default bridge; removing `pandora` removes exactly that container, and the
removed networks were exclusively its. -/
theorem c5_manage_remove_exact_witness :
    ∃ result, manage_remove
        { containers := [{ id := "c1", hostname := "h1", running := true,
                           labels := [(labelKey,
                             .jsonObj [("name", "clusterdock"), ("version", "1.5.0"),
                                       ("location", "/usr/lib/python"),
                                       ("cluster_name", "pandora")])],
                           networks := ["cluster"] },
                         { id := "c2", hostname := "h2", running := true,
                           labels := [(labelKey,
                             .jsonObj [("name", "clusterdock"), ("version", "1.5.0"),
                                       ("location", "/usr/lib/python"),
                                       ("cluster_name", "virgo")])],
                           networks := ["bridge"] }]
          networks := [{ name := "cluster", predefined := false },
                       { name := "bridge", predefined := true }] }
        ["pandora"] true false = some result ∧
      result.removedContainerIds =
        (List.filter (clusterNameMatches ["pandora"])
          [{ id := "c1", hostname := "h1", running := true,
             labels := [(labelKey,
               .jsonObj [("name", "clusterdock"), ("version", "1.5.0"),
                         ("location", "/usr/lib/python"),
                         ("cluster_name", "pandora")])],
             networks := ["cluster"] },
           { id := "c2", hostname := "h2", running := true,
             labels := [(labelKey,
               .jsonObj [("name", "clusterdock"), ("version", "1.5.0"),
                         ("location", "/usr/lib/python"),
                         ("cluster_name", "virgo")])],
             networks := ["bridge"] }]).map (·.id) ∧
      ∀ name ∈ result.removedNetworkNames,
        (∃ c ∈ [{ id := "c1", hostname := "h1", running := true,
                  labels := [(labelKey,
                    .jsonObj [("name", "clusterdock"), ("version", "1.5.0"),
                              ("location", "/usr/lib/python"),
                              ("cluster_name", "pandora")])],
                  networks := ["cluster"] },
                { id := "c2", hostname := "h2", running := true,
                  labels := [(labelKey,
                    .jsonObj [("name", "clusterdock"), ("version", "1.5.0"),
                              ("location", "/usr/lib/python"),
                              ("cluster_name", "virgo")])],
                  networks := ["bridge"] }],
          clusterNameMatches ["pandora"] c = true ∧ name ∈ c.networks) ∧
        (∀ c ∈ [{ id := "c1", hostname := "h1", running := true,
                  labels := [(labelKey,
                    .jsonObj [("name", "clusterdock"), ("version", "1.5.0"),
                              ("location", "/usr/lib/python"),
                              ("cluster_name", "pandora")])],
                  networks := ["cluster"] },
                { id := "c2", hostname := "h2", running := true,
                  labels := [(labelKey,
                    .jsonObj [("name", "clusterdock"), ("version", "1.5.0"),
                              ("location", "/usr/lib/python"),
                              ("cluster_name", "virgo")])],
                  networks := ["bridge"] }],
          name ∈ c.networks → clusterNameMatches ["pandora"] c = true) :=
  c5_manage_remove_exact
    { containers := [{ id := "c1", hostname := "h1", running := true,
                       labels := [(labelKey,
                         .jsonObj [("name", "clusterdock"), ("version", "1.5.0"),
                                   ("location", "/usr/lib/python"),
                                   ("cluster_name", "pandora")])],
                       networks := ["cluster"] },
                     { id := "c2", hostname := "h2", running := true,
                       labels := [(labelKey,
                         .jsonObj [("name", "clusterdock"), ("version", "1.5.0"),
                                   ("location", "/usr/lib/python"),
                                   ("cluster_name", "virgo")])],
                       networks := ["bridge"] }]
      networks := [{ name := "cluster", predefined := false },
                   { name := "bridge", predefined := true }] }
    ["pandora"] true (by decide) (by decide) (by decide)

/-- Helper: the dry-run container loop emits only the per-container debug
lines. -/
theorem containerLoopEvents_dry (l : List (HostContainer × Option String)) :
    containerLoopEvents l true =
      l.map (fun t => TeardownEvent.debugRemovingContainer t.1.hostname) := by
  induction l with
  | nil => rfl
  | cons a l ih => simpa [containerLoopEvents] using ih

/-- Helper: the dry-run network loop emits only the per-network debug lines. -/
theorem networkLoopEvents_dry (l : List HostNetwork) :
    networkLoopEvents l true =
      l.map (fun nw => TeardownEvent.debugRemovingNetwork nw.name) := by
  induction l with
  | nil => rfl
  | cons a l ih => simpa [networkLoopEvents] using ih

/-- Helper: per-container debug lines are not mutating. -/
theorem filter_mutating_debugContainers (l : List (HostContainer × Option String)) :
    (l.map (fun t => TeardownEvent.debugRemovingContainer t.1.hostname)).filter
      TeardownEvent.isMutating = [] := by
  induction l with
  | nil => rfl
  | cons a l ih => simpa [TeardownEvent.isMutating] using ih

/-- Helper: per-network debug lines are not mutating. -/
theorem filter_mutating_debugNetworks (l : List HostNetwork) :
    (l.map (fun nw => TeardownEvent.debugRemovingNetwork nw.name)).filter
      TeardownEvent.isMutating = [] := by
  induction l with
  | nil => rfl
  | cons a l ih => simp [TeardownEvent.isMutating, ih]

/-- Helper: the selection-line projection of the container loop is the same in
dry and live runs. -/
theorem filter_selection_containerLoop (l : List (HostContainer × Option String))
    (dry_run : Bool) :
    (containerLoopEvents l dry_run).filter TeardownEvent.isSelectionLog =
      l.map (fun t => TeardownEvent.debugRemovingContainer t.1.hostname) := by
  induction l with
  | nil => rfl
  | cons a l ih =>
      cases dry_run <;>
        simpa [containerLoopEvents, TeardownEvent.isSelectionLog] using ih

/-- Helper: the selection-line projection of the network loop is the same in
dry and live runs. -/
theorem filter_selection_networkLoop (l : List HostNetwork) (dry_run : Bool) :
    (networkLoopEvents l dry_run).filter TeardownEvent.isSelectionLog =
      l.map (fun nw => TeardownEvent.debugRemovingNetwork nw.name) := by
  induction l with
  | nil => rfl
  | cons a l ih =>
      cases dry_run <;>
        simpa [networkLoopEvents, TeardownEvent.isSelectionLog] using ih

/-- Helper: the removed-network report lines are not selection lines. -/
theorem filter_selection_removedNames (names : List String) :
    (names.map (TeardownEvent.debugRemovedNetwork ·)).filter
      TeardownEvent.isSelectionLog = [] := by
  induction names with
  | nil => rfl
  | cons a l ih => simp [TeardownEvent.isSelectionLog, ih]

/-- Helper: the removed-network report lines are not mutating. -/
theorem filter_mutating_removedNames (names : List String) :
    (names.map (TeardownEvent.debugRemovedNetwork ·)).filter
      TeardownEvent.isMutating = [] := by
  induction names with
  | nil => rfl
  | cons a l ih => simp [TeardownEvent.isMutating, ih]

/-- Helper: the empty-selection warning block contains no selection line. -/
theorem filter_selection_warnBlock (c : Prop) [Decidable c] :
    ((if c then [TeardownEvent.warnNoContainersFound] else []).filter
      TeardownEvent.isSelectionLog) = [] := by
  split <;> rfl

/-- Helper: the empty-selection warning block is not mutating. -/
theorem filter_mutating_warnBlock (c : Prop) [Decidable c] :
    ((if c then [TeardownEvent.warnNoContainersFound] else []).filter
      TeardownEvent.isMutating) = [] := by
  split <;> rfl

/-- Helper: the final report block contains no selection line. -/
theorem filter_selection_reportBlock (names : List String) (c1 c2 : Prop)
    [Decidable c1] [Decidable c2] :
    ((if c1 then
        [TeardownEvent.infoRemovedNetworks] ++
          names.map (TeardownEvent.debugRemovedNetwork ·)
      else if c2 then [TeardownEvent.warnCannotRemoveNetwork] else []).filter
      TeardownEvent.isSelectionLog) = [] := by
  split
  · simp [TeardownEvent.isSelectionLog, filter_selection_removedNames names]
  · split <;> rfl

/-- Helper: the final report block is not mutating. -/
theorem filter_mutating_reportBlock (names : List String) (c1 c2 : Prop)
    [Decidable c1] [Decidable c2] :
    ((if c1 then
        [TeardownEvent.infoRemovedNetworks] ++
          names.map (TeardownEvent.debugRemovedNetwork ·)
      else if c2 then [TeardownEvent.warnCannotRemoveNetwork] else []).filter
      TeardownEvent.isMutating) = [] := by
  split
  · simp [TeardownEvent.isMutating, filter_mutating_removedNames names]
  · split <;> rfl

/-- Claim C6 (counterexample): on a host with one selected running container
attached to a removable network, the live `remove --network` run reports the
removed network (info + debug lines) while the dry run reports nothing — the
log outputs of the two runs differ. -/
theorem c6_dry_and_live_logs_differ :
    ¬ ((nuke_containers_and_networks
          { containers := [{ id := "c1", hostname := "h1", running := true,
                             labels := [], networks := ["cluster"] }]
            networks := [{ name := "cluster", predefined := false }] }
          [({ id := "c1", hostname := "h1", running := true,
              labels := [], networks := ["cluster"] }, some "pandora")]
          true false true).trace.filter TeardownEvent.isLog =
        (nuke_containers_and_networks
          { containers := [{ id := "c1", hostname := "h1", running := true,
                             labels := [], networks := ["cluster"] }]
            networks := [{ name := "cluster", predefined := false }] }
          [({ id := "c1", hostname := "h1", running := true,
              labels := [], networks := ["cluster"] }, some "pandora")]
          false false true).trace.filter TeardownEvent.isLog) := by
  decide

/-- Claim C6 (amended): for every teardown invocation over any host state, the
dry run performs zero mutating engine calls (no container removal, no
`/etc/hosts` scrub, no network removal) and emits exactly the same per-item
selection log lines ("Removing container/network ...") as the live run; the
summary reporting lines (empty-selection warning, removed-network report,
cannot-remove warning) are emitted only by live runs, so full log output can
differ. -/
theorem c6_dry_run_is_pure_preview (state : HostState)
    (containers_tup : List (HostContainer × Option String))
    (nuke_networks remove_network : Bool) :
    ((nuke_containers_and_networks state containers_tup true
        nuke_networks remove_network).trace.filter TeardownEvent.isMutating = []) ∧
    ((nuke_containers_and_networks state containers_tup true
        nuke_networks remove_network).trace.filter TeardownEvent.isSelectionLog =
      (nuke_containers_and_networks state containers_tup false
        nuke_networks remove_network).trace.filter TeardownEvent.isSelectionLog) := by
  constructor
  · simp only [nuke_containers_and_networks, List.filter_append,
      containerLoopEvents_dry, networkLoopEvents_dry,
      filter_mutating_debugContainers, filter_mutating_debugNetworks,
      filter_mutating_warnBlock, filter_mutating_reportBlock,
      List.append_nil, List.nil_append]
  · simp only [nuke_containers_and_networks, List.filter_append,
      filter_selection_containerLoop, filter_selection_networkLoop,
      filter_selection_warnBlock, filter_selection_reportBlock,
      List.append_nil, List.nil_append]

end Clusterdock
